import Mathlib

/-!
Verification development for the jagriti-api repository: a shallow embedding
of the upstream gateway (retry-tolerant request primitive), the directory
resolver (name-to-ID lookup), the search orchestrator (payload construction
and result transformation), the request validation layer, and the API-level
error classification, together with theorems settling the specification
claims against this embedding.
-/

/-! ## Python string helpers (models of str.upper, str.lower, substring test) -/

/-- Model of Python str.upper: character-wise upper-casing of the string data. -/
def strUpper (s : String) : String := ⟨s.data.map Char.toUpper⟩

/-- Model of Python str.lower: character-wise lower-casing of the string data. -/
def strLower (s : String) : String := ⟨s.data.map Char.toLower⟩

/-- Substring test on character lists: does pat occur contiguously in the list? -/
def listContainsSub (pat : List Char) : List Char → Bool
  | [] => List.isPrefixOf pat []
  | c :: rest => List.isPrefixOf pat (c :: rest) || listContainsSub pat rest

/-- Model of the route handlers' check: "not found" in str(e).lower(). -/
def notFoundIn (m : String) : Bool := listContainsSub "not found".data (strLower m).data

/-! ## app/config.py: Settings -/

def JAGRITI_BASE_URL : String := "https://e-jagriti.gov.in"

def REQUEST_TIMEOUT : Nat := 30

def MAX_RETRIES : Nat := 3

def DEFAULT_FROM_DATE : String := "2025-01-01"

def DEFAULT_TO_DATE : String := "2025-09-03"

def DATE_REQUEST_TYPE : Int := 1

def ORDER_TYPE : Int := 1

def JUDGE_ID : String := ""

def SEARCH_TYPES : List (String × Int) :=
  [("case_number", 1), ("complainant", 2), ("respondent", 3),
   ("complainant_advocate", 4), ("respondent_advocate", 5),
   ("industry_type", 6), ("judge", 7)]

/-- Lookup in the SEARCH_TYPES mapping (Python dict access by key). -/
def searchTypeOf (key : String) : Int :=
  ((SEARCH_TYPES.find? (fun kv => kv.1 == key)).map (fun kv => kv.2)).getD 0

/-! ## app/services/jagriti_client.py: the request primitive -/

/-- JagritiAPIException: message plus optional status code and response data. -/
structure JagritiAPIException where
  message : String
  status_code : Option Nat := none
  response_data : Option String := none
deriving DecidableEq

/-- What one attempt of the underlying transport does: either the request
times out, the response has an HTTP error status (carrying e.response.text,
whether e.response.content is non-empty, and the outcome of e.response.json()
on that content — a parsed value, or the decode-error message when the body
is not valid JSON), a generic transport error occurs, some other exception is
raised (for example decoding the body of a 2xx response), or parsed data is
returned. -/
inductive AttemptOutcome (α : Type) where
  | timeout (msg : String)
  | httpStatusError (status : Nat) (text : String) (hasContent : Bool)
      (jsonParse : Except String String)
  | requestError (msg : String)
  | otherError (msg : String)
  | success (value : α)

/-- Result of the request primitive: parsed data, a raised
JagritiAPIException, a raw exception that is not a JagritiAPIException (a
JSONDecodeError escaping the non-2xx handler), or the implicit None return
when the retry loop body never runs (max_retries = 0). -/
inductive ReqResult (α : Type) where
  | ok (value : α)
  | exn (e : JagritiAPIException)
  | rawExn (msg : String)
  | noneReturn
deriving DecidableEq

/-- Observable trace of one call to the request primitive: its result, the
backoff sleeps performed (in order), and how many attempts were issued. -/
structure ReqTrace (α : Type) where
  result : ReqResult α
  delays : List Nat
  attempts : Nat

/-- Is an attempt outcome one of the retried failure classes
(httpx.TimeoutException or httpx.RequestError)? -/
def retryableOutcome : AttemptOutcome α → Bool
  | .timeout _ => true
  | .requestError _ => true
  | _ => false

/-- What the httpx.HTTPStatusError handler produces. The handler builds
JagritiAPIException with response_data computed as e.response.json() if
e.response.content else None; when the body is non-empty but not valid JSON,
e.response.json() raises inside the handler, so the structured exception is
never constructed and the raw JSONDecodeError propagates instead, carrying
neither the status code nor the body. -/
def httpErrorResult (α : Type) (status : Nat) (text : String) (hasContent : Bool)
    (jsonParse : Except String String) : ReqResult α :=
  if hasContent then
    match jsonParse with
    | .ok v => .exn ⟨"HTTP " ++ toString status ++ " error: " ++ text, some status, some v⟩
    | .error m => .rawExn m
  else
    .exn ⟨"HTTP " ++ toString status ++ " error: " ++ text, some status, none⟩

/-- The retry loop of JagritiAPIClient._make_request. The script gives the
transport outcome of each attempt index. remaining is the number of loop
iterations left (max_retries - attempt). -/
def make_request_loop (script : Nat → AttemptOutcome α) (maxRetries : Nat) :
    Nat → Nat → ReqTrace α
  | _, 0 => ⟨.noneReturn, [], 0⟩
  | attempt, remaining + 1 =>
    match script attempt with
    | .success v => ⟨.ok v, [], 1⟩
    | .timeout _ =>
      if attempt == maxRetries - 1 then
        ⟨.exn ⟨"Request timed out after " ++ toString maxRetries ++ " attempts", none, none⟩,
         [], 1⟩
      else
        let tr := make_request_loop script maxRetries (attempt + 1) remaining
        ⟨tr.result, 2 ^ attempt :: tr.delays, tr.attempts + 1⟩
    | .httpStatusError status text hasContent jsonParse =>
      ⟨httpErrorResult α status text hasContent jsonParse, [], 1⟩
    | .requestError msg =>
      if attempt == maxRetries - 1 then
        ⟨.exn ⟨"Request failed after " ++ toString maxRetries ++ " attempts: " ++ msg,
               none, none⟩, [], 1⟩
      else
        let tr := make_request_loop script maxRetries (attempt + 1) remaining
        ⟨tr.result, 2 ^ attempt :: tr.delays, tr.attempts + 1⟩
    | .otherError msg => ⟨.exn ⟨"Unexpected error: " ++ msg, none, none⟩, [], 1⟩

/-- JagritiAPIClient._make_request: run the retry loop from attempt 0. -/
def make_request (script : Nat → AttemptOutcome α) (maxRetries : Nat) : ReqTrace α :=
  make_request_loop script maxRetries 0 maxRetries

/-! ## app/models/jagriti.py -/

structure JagritiStateCommission where
  commissionId : Int
  commissionNameEn : String
  circuitAdditionBenchStatus : Bool
  activeStatus : Bool
deriving DecidableEq

structure JagritiStatesResponse where
  data : List JagritiStateCommission
  message : String
  error : String
  status : Int
deriving DecidableEq

structure JagritiDistrictCommission where
  commissionId : Int
  commissionNameEn : String
  circuitAdditionBenchStatus : Bool
  activeStatus : Bool
deriving DecidableEq

structure JagritiDistrictCommissionsResponse where
  data : List JagritiDistrictCommission
  message : String
  error : String
  status : Int
deriving DecidableEq

structure JagritiCaseDetail where
  caseNumber : String
  complainantName : String
  complainantAdvocateName : Option String := none
  respondentName : String
  respondentAdvocateName : Option String := none
  caseFilingDate : String
  orderDocumentPath : Option String := none
  orderDate : Option String := none
  dateOfDisposal : Option String := none
  caseStageName : String
  additionalComplainant : Option String := none
  additionalRespondant : Option String := none
  dailyOrderStatus : Bool
  judgemtmentDocumentPath : Option String := none
  judgemtmentDate : Option String := none
  judgmentOrderDocumentBase64 : Option String := none
deriving DecidableEq

structure JagritiCaseSearchResponse where
  message : String
  status : Int
  data : List JagritiCaseDetail
  error : String
deriving DecidableEq

structure JagritiCaseSearchRequest where
  commissionId : Int
  dateRequestType : Int
  fromDate : String
  toDate : String
  judgeId : String
  orderType : Int
  serchType : Int
  serchTypeValue : String
deriving DecidableEq

/-! ## app/models/requests.py and its validators -/

/-- The validated CaseSearchRequest model (state already upper-cased). -/
structure CaseSearchRequest where
  state : String
  commission : String
  search_value : String
  from_date : Option String := none
  to_date : Option String := none
deriving DecidableEq

/-- Numeric value of a list of ASCII digit characters. -/
def digitsVal (l : List Char) : Nat := l.foldl (fun a c => a * 10 + (c.toNat - 48)) 0

def allDigits (l : List Char) : Bool := l.all Char.isDigit

/-- The %Y directive of strptime: exactly four digits. -/
def parseYearTok (l : List Char) : Option Nat :=
  if allDigits l && l.length == 4 then some (digitsVal l) else none

/-- The %m directive of strptime: one or two digits, value 1 to 12
(zero-padded or not). -/
def parseMonthTok (l : List Char) : Option Nat :=
  if allDigits l && (l.length == 1 || l.length == 2) then
    let v := digitsVal l
    if 1 ≤ v ∧ v ≤ 12 then some v else none
  else none

/-- The %d directive of strptime: one or two digits, value 1 to 31
(zero-padded or not). -/
def parseDayTok (l : List Char) : Option Nat :=
  if allDigits l && (l.length == 1 || l.length == 2) then
    let v := digitsVal l
    if 1 ≤ v ∧ v ≤ 31 then some v else none
  else none

def isLeapYear (y : Nat) : Bool := y % 4 == 0 && (y % 100 != 0 || y % 400 == 0)

def daysInMonth (y m : Nat) : Nat :=
  if m == 2 then (if isLeapYear y then 29 else 28)
  else if m == 4 || m == 6 || m == 9 || m == 11 then 30
  else 31

/-- Split a character list at every dash (date tokens never contain a dash,
so this matches the anchored strptime regex decomposition for %Y-%m-%d). -/
def splitOnDashAux : List Char → List Char → List (List Char)
  | [], acc => [acc.reverse]
  | c :: rest, acc =>
    if c == '-' then acc.reverse :: splitOnDashAux rest []
    else splitOnDashAux rest (c :: acc)

/-- Model of datetime.strptime(s, percent-Y-m-d): token match per directive,
then calendar validity of the constructed date (datetime rejects day out of
range for the month and year 0). -/
def strptime_date (s : String) : Option (Nat × Nat × Nat) :=
  match splitOnDashAux s.data [] with
  | [ys, ms, ds] =>
    match parseYearTok ys, parseMonthTok ms, parseDayTok ds with
    | some y, some m, some d =>
      if 1 ≤ y ∧ d ≤ daysInMonth y m then some (y, m, d) else none
    | _, _, _ => none
  | _ => none

/-- datetime comparison: lexicographic on (year, month, day). -/
def dateLt (a b : Nat × Nat × Nat) : Bool :=
  decide (a.1 < b.1 ∨ (a.1 = b.1 ∧ (a.2.1 < b.2.1 ∨ (a.2.1 = b.2.1 ∧ a.2.2 < b.2.2))))

/-- The validate_date_format validator on one optional date field. -/
def validate_date_field (v : Option String) : Except String (Option String) :=
  match v with
  | none => .ok none
  | some s =>
    if (strptime_date s).isSome then .ok (some s)
    else .error "Date must be in YYYY-MM-DD format"

/-- Validation of CaseSearchRequest: min_length on the three strings,
state upper-cased, date format checks, then the date-ordering validator. -/
def validate_case_search_request (state commission search_value : String)
    (from_date to_date : Option String) : Except String CaseSearchRequest :=
  if state = "" then .error "ensure this value has at least 1 characters"
  else if commission = "" then .error "ensure this value has at least 1 characters"
  else if search_value = "" then .error "ensure this value has at least 1 characters"
  else
    match validate_date_field from_date with
    | .error e => .error e
    | .ok fd =>
      match validate_date_field to_date with
      | .error e => .error e
      | .ok td =>
        match fd, td with
        | some fs, some ts =>
          match strptime_date fs, strptime_date ts with
          | some df, some dt =>
            if dateLt dt df then .error "to_date must be after from_date"
            else .ok { state := strUpper state, commission := commission,
                       search_value := search_value, from_date := fd, to_date := td }
          | _, _ =>
            .ok { state := strUpper state, commission := commission,
                  search_value := search_value, from_date := fd, to_date := td }
        | _, _ =>
          .ok { state := strUpper state, commission := commission,
                search_value := search_value, from_date := fd, to_date := td }

/-- Modelled from the spec: the literal YYYY-MM-DD form, four digits, a dash,
two digits, a dash, two digits. Used only to compare the strict spec wording
against the lenient strptime acceptance of the code. -/
def isStrictYMD (s : String) : Bool :=
  match s.data with
  | [y1, y2, y3, y4, h1, m1, m2, h2, d1, d2] =>
    y1.isDigit && y2.isDigit && y3.isDigit && y4.isDigit && (h1 == '-') &&
    m1.isDigit && m2.isDigit && (h2 == '-') && d1.isDigit && d2.isDigit
  | _ => false

/-! ## app/models/responses.py -/

structure CaseResponse where
  case_number : String
  case_stage : String
  filing_date : String
  complainant : String
  complainant_advocate : Option String := none
  respondent : String
  respondent_advocate : Option String := none
  document_link : Option String := none
deriving DecidableEq

/-- The search_criteria dict assembled by CaseService.search_cases_by_type. -/
structure SearchCriteria where
  state : String
  commission : String
  search_value : String
  search_type : Int
  from_date : String
  to_date : String
  state_commission_id : Int
  district_commission_id : Int
deriving DecidableEq

structure CaseSearchResponse where
  cases : List CaseResponse
  total_count : Nat
  search_criteria : SearchCriteria
deriving DecidableEq

/-! ## app/services/jagriti_client.py: client over an abstract transport -/

/-- The upstream as seen at the boundary of the request primitive plus model
parsing: for each endpoint either parsed data or the message text of the
exception raised by the request or the parse. -/
structure Transport where
  statesResult : Except String JagritiStatesResponse
  districtsResult : Int → Except String JagritiDistrictCommissionsResponse
  searchResult : JagritiCaseSearchRequest → Except String JagritiCaseSearchResponse

def get_states_and_commissions (t : Transport) : Except String JagritiStatesResponse :=
  match t.statesResult with
  | .ok r => .ok r
  | .error m => .error ("Failed to fetch states and commissions: " ++ m)

def get_district_commissions (t : Transport) (state_commission_id : Int) :
    Except String JagritiDistrictCommissionsResponse :=
  match t.districtsResult state_commission_id with
  | .ok r => .ok r
  | .error m => .error ("Failed to fetch district commissions: " ++ m)

def search_cases (t : Transport) (search_request : JagritiCaseSearchRequest) :
    Except String JagritiCaseSearchResponse :=
  match t.searchResult search_request with
  | .ok r => .ok r
  | .error m => .error ("Failed to search cases: " ++ m)

/-- The comparison of find_state_commission_id:
state.commissionNameEn.upper() == state_name.upper(). -/
def stateMatches (state_name : String) (s : JagritiStateCommission) : Bool :=
  strUpper s.commissionNameEn == strUpper state_name

/-- The linear scan of find_state_commission_id over the fetched list. -/
def matchStateList (data : List JagritiStateCommission) (state_name : String) : Option Int :=
  (data.find? (stateMatches state_name)).map JagritiStateCommission.commissionId

def find_state_commission_id (t : Transport) (state_name : String) :
    Except String (Option Int) :=
  match get_states_and_commissions t with
  | .error m => .error ("Failed to find state commission ID: " ++ m)
  | .ok resp => .ok (matchStateList resp.data state_name)

/-- The comparison of find_district_commission_id:
district.commissionNameEn.lower() == district_name.lower(). -/
def districtMatches (district_name : String) (d : JagritiDistrictCommission) : Bool :=
  strLower d.commissionNameEn == strLower district_name

/-- The linear scan of find_district_commission_id over the fetched list. -/
def matchDistrictList (data : List JagritiDistrictCommission) (district_name : String) :
    Option Int :=
  (data.find? (districtMatches district_name)).map JagritiDistrictCommission.commissionId

def find_district_commission_id (t : Transport) (state_commission_id : Int)
    (district_name : String) : Except String (Option Int) :=
  match get_district_commissions t state_commission_id with
  | .error m => .error ("Failed to find district commission ID: " ++ m)
  | .ok resp => .ok (matchDistrictList resp.data district_name)

/-- Rewrite the two status flags of a state entry, keeping name and ID. -/
def reflagState (f g : Bool → Bool) (s : JagritiStateCommission) : JagritiStateCommission :=
  { s with activeStatus := f s.activeStatus,
           circuitAdditionBenchStatus := g s.circuitAdditionBenchStatus }

/-- Rewrite the two status flags of a district entry, keeping name and ID. -/
def reflagDistrict (f g : Bool → Bool) (d : JagritiDistrictCommission) :
    JagritiDistrictCommission :=
  { d with activeStatus := f d.activeStatus,
           circuitAdditionBenchStatus := g d.circuitAdditionBenchStatus }

/-! ## app/services/case_service.py -/

/-- Python "x or default" on an optional string (None and "" are falsy). -/
def pyOrStr (v : Option String) (dflt : String) : String :=
  match v with
  | none => dflt
  | some s => if s == "" then dflt else s

/-- CaseService._transform_case_detail: document link from truthy
orderDocumentPath, all other fields direct renamings. -/
def transform_case_detail (jagriti_case : JagritiCaseDetail) : CaseResponse :=
  let document_link : Option String :=
    match jagriti_case.orderDocumentPath with
    | some p => if p == "" then none else some (JAGRITI_BASE_URL ++ p)
    | none => none
  { case_number := jagriti_case.caseNumber,
    case_stage := jagriti_case.caseStageName,
    filing_date := jagriti_case.caseFilingDate,
    complainant := jagriti_case.complainantName,
    complainant_advocate := jagriti_case.complainantAdvocateName,
    respondent := jagriti_case.respondentName,
    respondent_advocate := jagriti_case.respondentAdvocateName,
    document_link := document_link }

/-- The JagritiCaseSearchRequest the orchestrator assembles. -/
def orchestrator_payload (district_commission_id : Int) (search_type : Int)
    (request : CaseSearchRequest) : JagritiCaseSearchRequest :=
  { commissionId := district_commission_id,
    dateRequestType := DATE_REQUEST_TYPE,
    fromDate := pyOrStr request.from_date DEFAULT_FROM_DATE,
    toDate := pyOrStr request.to_date DEFAULT_TO_DATE,
    judgeId := JUDGE_ID,
    orderType := ORDER_TYPE,
    serchType := search_type,
    serchTypeValue := request.search_value }

/-- The two exception classes that can cross the try block of
CaseService.search_cases_by_type. -/
inductive PyExc where
  | jagriti (msg : String)
  | service (msg : String)
deriving DecidableEq

/-- Body of the try block of CaseService.search_cases_by_type: resolve the
state ID (None or 0 is falsy and raises), resolve the district ID likewise,
default the dates, build the payload, search, transform, assemble. -/
def search_cases_inner (t : Transport) (request : CaseSearchRequest)
    (search_type : Int) : Except PyExc CaseSearchResponse :=
  match find_state_commission_id t request.state with
  | .error m => .error (.jagriti m)
  | .ok none => .error (.service ("State \x27" ++ request.state ++ "\x27 not found"))
  | .ok (some state_commission_id) =>
    if state_commission_id == 0 then
      .error (.service ("State \x27" ++ request.state ++ "\x27 not found"))
    else
      match find_district_commission_id t state_commission_id request.commission with
      | .error m => .error (.jagriti m)
      | .ok none =>
        .error (.service ("Commission \x27" ++ request.commission ++
                          "\x27 not found in state \x27" ++ request.state ++ "\x27"))
      | .ok (some district_commission_id) =>
        if district_commission_id == 0 then
          .error (.service ("Commission \x27" ++ request.commission ++
                            "\x27 not found in state \x27" ++ request.state ++ "\x27"))
        else
          match search_cases t (orchestrator_payload district_commission_id search_type request) with
          | .error m => .error (.jagriti m)
          | .ok jagriti_response =>
            let cases := jagriti_response.data.map transform_case_detail
            .ok { cases := cases,
                  total_count := cases.length,
                  search_criteria :=
                    { state := request.state,
                      commission := request.commission,
                      search_value := request.search_value,
                      search_type := search_type,
                      from_date := pyOrStr request.from_date DEFAULT_FROM_DATE,
                      to_date := pyOrStr request.to_date DEFAULT_TO_DATE,
                      state_commission_id := state_commission_id,
                      district_commission_id := district_commission_id } }

/-- CaseService.search_cases_by_type with its exception wrapping: a
JagritiAPIException becomes "External API error: ...", any other exception
(including the not-found CaseServiceException raised inside the try block)
becomes "Case search failed: ...". -/
def search_cases_by_type (t : Transport) (request : CaseSearchRequest)
    (search_type : Int) : Except String CaseSearchResponse :=
  match search_cases_inner t request search_type with
  | .ok r => .ok r
  | .error (.jagriti m) => .error ("External API error: " ++ m)
  | .error (.service m) => .error ("Case search failed: " ++ m)

def search_cases_by_case_number (t : Transport) (request : CaseSearchRequest) :
    Except String CaseSearchResponse :=
  search_cases_by_type t request (searchTypeOf "case_number")

def search_cases_by_complainant (t : Transport) (request : CaseSearchRequest) :
    Except String CaseSearchResponse :=
  search_cases_by_type t request (searchTypeOf "complainant")

def search_cases_by_respondent (t : Transport) (request : CaseSearchRequest) :
    Except String CaseSearchResponse :=
  search_cases_by_type t request (searchTypeOf "respondent")

def search_cases_by_complainant_advocate (t : Transport) (request : CaseSearchRequest) :
    Except String CaseSearchResponse :=
  search_cases_by_type t request (searchTypeOf "complainant_advocate")

def search_cases_by_respondent_advocate (t : Transport) (request : CaseSearchRequest) :
    Except String CaseSearchResponse :=
  search_cases_by_type t request (searchTypeOf "respondent_advocate")

def search_cases_by_industry_type (t : Transport) (request : CaseSearchRequest) :
    Except String CaseSearchResponse :=
  search_cases_by_type t request (searchTypeOf "industry_type")

def search_cases_by_judge (t : Transport) (request : CaseSearchRequest) :
    Except String CaseSearchResponse :=
  search_cases_by_type t request (searchTypeOf "judge")

/-! ## app/api/cases.py: route-level error classification -/

/-- Outward outcome of one search route call. -/
inductive ApiOutcome where
  | success (resp : CaseSearchResponse)
  | httpError (status : Nat) (detail : String)
deriving DecidableEq

/-- A route handler body: on CaseServiceException, 404 when "not found"
occurs in the lower-cased message, else 500. -/
def search_cases_endpoint (t : Transport) (request : CaseSearchRequest)
    (search_type : Int) : ApiOutcome :=
  match search_cases_by_type t request search_type with
  | .ok r => .success r
  | .error m => if notFoundIn m then .httpError 404 m else .httpError 500 m

/-- Outward outcome of a route call including the validation layer. -/
inductive FullApiOutcome where
  | validationError (detail : String)
  | success (resp : CaseSearchResponse)
  | httpError (status : Nat) (detail : String)
deriving DecidableEq

/-- A route call from raw inputs: validation first (FastAPI rejects before
the handler body and hence before any network use), then the handler. -/
def api_full (t : Transport) (state commission search_value : String)
    (from_date to_date : Option String) (search_type : Int) : FullApiOutcome :=
  match validate_case_search_request state commission search_value from_date to_date with
  | .error e => .validationError e
  | .ok req =>
    match search_cases_endpoint t req search_type with
    | .success r => .success r
    | .httpError s d => .httpError s d

/-! ## Helper lemmas -/

/-- A prefix of a list is a prefix of that list extended on the right. -/
theorem isPrefixOfAppendRight : ∀ (pat l m : List Char),
    List.isPrefixOf pat l = true → List.isPrefixOf pat (l ++ m) = true := by
  intro pat
  induction pat with
  | nil => intro l m _; cases l ++ m <;> rfl
  | cons a pat ih =>
    intro l m h
    cases l with
    | nil => simp [List.isPrefixOf] at h
    | cons b l =>
      simp only [List.isPrefixOf, Bool.and_eq_true] at h
      simp only [List.cons_append, List.isPrefixOf, Bool.and_eq_true]
      exact ⟨h.1, ih l m h.2⟩

/-- A substring occurrence survives extending the list on the right. -/
theorem containsSubAppendLeft : ∀ (pat l m : List Char),
    listContainsSub pat l = true → listContainsSub pat (l ++ m) = true := by
  intro pat l
  induction l with
  | nil =>
    intro m h
    cases pat with
    | nil =>
      cases m with
      | nil => rfl
      | cons c m => simp [listContainsSub, List.isPrefixOf]
    | cons a pat => simp [listContainsSub, List.isPrefixOf] at h
  | cons c l ih =>
    intro m h
    simp only [listContainsSub, Bool.or_eq_true] at h
    rcases h with h | h
    · simp only [List.cons_append, listContainsSub, Bool.or_eq_true]
      exact Or.inl (by
        have := isPrefixOfAppendRight pat (c :: l) m h
        simpa using this)
    · simp only [List.cons_append, listContainsSub, Bool.or_eq_true]
      exact Or.inr (ih m h)

/-- A substring occurrence survives extending the list on the left. -/
theorem containsSubAppendRight : ∀ (pat l m : List Char),
    listContainsSub pat m = true → listContainsSub pat (l ++ m) = true := by
  intro pat l
  induction l with
  | nil => intro m h; exact h
  | cons c l ih =>
    intro m h
    simp only [List.cons_append, listContainsSub, Bool.or_eq_true]
    exact Or.inr (ih m h)

/-- Data of the lower-cased string is the character-wise lower-cased data. -/
theorem strLowerData (s : String) : (strLower s).data = s.data.map Char.toLower := rfl

/-- Data of an appended string is the appended data. -/
theorem strDataAppend (a b : String) : (a ++ b).data = a.data ++ b.data := by
  cases a with
  | mk la => cases b with
    | mk lb => rfl

/-- The route-handler check accepts any message ending in a matching part. -/
theorem notFoundInAppendRight (a b : String) (h : notFoundIn b = true) :
    notFoundIn (a ++ b) = true := by
  rw [notFoundIn] at h ⊢
  rw [strLowerData, strDataAppend, List.map_append]
  exact containsSubAppendRight _ _ _ (by rw [strLowerData] at h; exact h)

/-- The route-handler check accepts any message starting in a matching part. -/
theorem notFoundInAppendLeft (a b : String) (h : notFoundIn a = true) :
    notFoundIn (a ++ b) = true := by
  rw [notFoundIn] at h ⊢
  rw [strLowerData, strDataAppend, List.map_append]
  exact containsSubAppendLeft _ _ _ (by rw [strLowerData] at h; exact h)

/-- Scanning a list whose first matching element is x yields x. -/
theorem find_first_in_order {α : Type} (p : α → Bool) :
    ∀ (l1 : List α) (x : α) (l2 : List α), (∀ y ∈ l1, p y = false) → p x = true →
    (l1 ++ x :: l2).find? p = some x := by
  intro l1
  induction l1 with
  | nil => intro x l2 _ hx; simp [List.find?_cons_of_pos, hx]
  | cons a l1 ih =>
    intro x l2 h hx
    have ha : p a = false := h a (List.mem_cons_self a l1)
    rw [List.cons_append, List.find?_cons_of_neg _ (by simp [ha]), ih x l2
      (fun y hy => h y (List.mem_cons_of_mem a hy)) hx]

/-- Trace of the retry loop when every attempt times out: starting at the
given attempt with the given iterations remaining, it raises the timeout
exception, sleeps 2 to the power of each non-final attempt index, and issues
one request per remaining iteration. -/
theorem make_request_loop_timeout (α : Type) (n : Nat) (f : Nat → String) :
    ∀ (r attempt : Nat), attempt + r = n → 1 ≤ r →
    make_request_loop (fun i => (AttemptOutcome.timeout (f i) : AttemptOutcome α)) n attempt r
      = ⟨.exn ⟨"Request timed out after " ++ toString n ++ " attempts", none, none⟩,
         (List.range' attempt (r - 1)).map (fun a => 2 ^ a), r⟩ := by
  intro r
  induction r with
  | zero => intro attempt h h1; omega
  | succ r ih =>
    intro attempt hsum _
    by_cases hr : r = 0
    · subst hr
      have ha : attempt = n - 1 := by omega
      subst ha
      simp [make_request_loop, List.range']
    · have hne : attempt ≠ n - 1 := by omega
      simp only [make_request_loop]
      rw [if_neg (by simp [hne])]
      rw [ih (attempt + 1) (by omega) (by omega)]
      have hrr : r - 1 + 1 = r := by omega
      simp only [Nat.add_sub_cancel]
      rw [show List.range' attempt r = attempt :: List.range' (attempt + 1) (r - 1) by
        rw [← hrr]; rfl]
      simp

/-- Trace of the retry loop when every attempt fails with a transport error:
same shape as the timeout case, with the unreachable-style message. -/
theorem make_request_loop_requesterror (α : Type) (n : Nat) (f : Nat → String) :
    ∀ (r attempt : Nat), attempt + r = n → 1 ≤ r →
    make_request_loop (fun i => (AttemptOutcome.requestError (f i) : AttemptOutcome α)) n attempt r
      = ⟨.exn ⟨"Request failed after " ++ toString n ++ " attempts: " ++ f (n - 1),
               none, none⟩,
         (List.range' attempt (r - 1)).map (fun a => 2 ^ a), r⟩ := by
  intro r
  induction r with
  | zero => intro attempt h h1; omega
  | succ r ih =>
    intro attempt hsum _
    by_cases hr : r = 0
    · subst hr
      have ha : attempt = n - 1 := by omega
      subst ha
      simp [make_request_loop, List.range']
    · have hne : attempt ≠ n - 1 := by omega
      simp only [make_request_loop]
      rw [if_neg (by simp [hne])]
      rw [ih (attempt + 1) (by omega) (by omega)]
      have hrr : r - 1 + 1 = r := by omega
      simp only [Nat.add_sub_cancel]
      rw [show List.range' attempt r = attempt :: List.range' (attempt + 1) (r - 1) by
        rw [← hrr]; rfl]
      simp

/-- Trace of the retry loop when the attempt at relative index k receives an
HTTP error status after only retryable failures: the loop stops there with
whatever the non-2xx handler produces, having slept only for the earlier
retryable attempts. -/
theorem make_request_loop_http (α : Type) (script : Nat → AttemptOutcome α)
    (n status : Nat) (text : String) (hasContent : Bool)
    (jsonParse : Except String String) :
    ∀ (k attempt r : Nat), attempt + r = n → k < r →
    (∀ i, i < k → retryableOutcome (script (attempt + i)) = true) →
    script (attempt + k) = .httpStatusError status text hasContent jsonParse →
    make_request_loop script n attempt r
      = ⟨httpErrorResult α status text hasContent jsonParse,
         (List.range' attempt k).map (fun a => 2 ^ a), k + 1⟩ := by
  intro k
  induction k with
  | zero =>
    intro attempt r hsum hk _ hs
    obtain ⟨r2, rfl⟩ : ∃ r2, r = r2 + 1 := ⟨r - 1, by omega⟩
    rw [Nat.add_zero] at hs
    simp [make_request_loop, hs, List.range']
  | succ k ih =>
    intro attempt r hsum hk hr hs
    obtain ⟨r2, rfl⟩ : ∃ r2, r = r2 + 1 := ⟨r - 1, by omega⟩
    have hne : attempt ≠ n - 1 := by omega
    have h0 := hr 0 (by omega)
    rw [Nat.add_zero] at h0
    have hrec := ih (attempt + 1) r2 (by omega) (by omega)
      (fun i hi => by
        have h2 := hr (i + 1) (by omega)
        rw [show attempt + (i + 1) = attempt + 1 + i by omega] at h2
        exact h2)
      (by rw [show attempt + 1 + k = attempt + (k + 1) by omega]; exact hs)
    have hrange : List.range' attempt (k + 1) = attempt :: List.range' (attempt + 1) k := rfl
    cases hsa : script attempt with
    | timeout m =>
      simp only [make_request_loop, hsa]
      rw [if_neg (by simp [hne])]
      rw [hrec, hrange]
      simp
    | requestError m =>
      simp only [make_request_loop, hsa]
      rw [if_neg (by simp [hne])]
      rw [hrec, hrange]
      simp
    | httpStatusError s2 t2 c2 j2 => rw [hsa] at h0; simp [retryableOutcome] at h0
    | otherError m => rw [hsa] at h0; simp [retryableOutcome] at h0
    | success v => rw [hsa] at h0; simp [retryableOutcome] at h0

/-! ## Claim theorems -/

/-- C1 counterexample: with maxRetries = 3 and every attempt timing out, the
request primitive sleeps 1 then 2 time units between its three attempts; the
claimed delay sequence 1, 2, 4 does not occur (a delay of 4 would require a
sleep after the third and final attempt, but the final attempt raises
without sleeping). -/
theorem c1_backoff_delays_counterexample :
    (make_request (fun _ => (AttemptOutcome.timeout "t" : AttemptOutcome Nat)) 3).delays
      = [1, 2]
  ∧ [1, 2] ≠ ([1, 2, 4] : List Nat) := ⟨rfl, by decide⟩

/-- C1 (amended): for every maxRetries n at least 1, if every attempt fails
with a timeout (or, separately, with a generic transport failure), the
request primitive issues exactly n attempts, sleeps 2 to the power of the
attempt index after each non-final attempt (delays 2 to the 0 through
2 to the n-2, so 1 and 2 for the default n = 3), and then raises the
timeout-exhausted (respectively unreachable-style) exception. -/
theorem c1_retry_exhaustion (α : Type) (n : Nat) (f g : Nat → String) (hn : 1 ≤ n) :
    make_request (fun i => (AttemptOutcome.timeout (f i) : AttemptOutcome α)) n
      = ⟨.exn ⟨"Request timed out after " ++ toString n ++ " attempts", none, none⟩,
         (List.range (n - 1)).map (fun a => 2 ^ a), n⟩
  ∧ make_request (fun i => (AttemptOutcome.requestError (g i) : AttemptOutcome α)) n
      = ⟨.exn ⟨"Request failed after " ++ toString n ++ " attempts: " ++ g (n - 1),
               none, none⟩,
         (List.range (n - 1)).map (fun a => 2 ^ a), n⟩ := by
  constructor
  · rw [make_request, make_request_loop_timeout α n f n 0 (by omega) hn,
        List.range_eq_range']
  · rw [make_request, make_request_loop_requesterror α n g n 0 (by omega) hn,
        List.range_eq_range']

/-- C1 witness: the amended statement at the configured default of three
retries and an all-timeout transport. -/
theorem c1_retry_exhaustion_witness :
    make_request (fun _ => (AttemptOutcome.timeout "x" : AttemptOutcome Nat)) 3
      = ⟨.exn ⟨"Request timed out after 3 attempts", none, none⟩, [1, 2], 3⟩ :=
  (c1_retry_exhaustion Nat 3 (fun _ => "x") (fun _ => "x") (by decide)).1

/-- C2 counterexample: a 404 whose non-empty body "Not Found" is not valid
JSON makes the very first attempt fail with the raw JSONDecodeError raised
by e.response.json() inside the non-2xx handler — not with the structured
exception carrying the status code and body that the claim promises for
every non-2xx response. (There are no further attempts and no sleeps.) -/
theorem c2_json_decode_counterexample :
    make_request (fun _ => (AttemptOutcome.httpStatusError 404 "Not Found" true
        (.error "Expecting value: line 1 column 1 (char 0)") : AttemptOutcome Nat)) 3
      = ⟨.rawExn "Expecting value: line 1 column 1 (char 0)", [], 1⟩
  ∧ (make_request (fun _ => (AttemptOutcome.httpStatusError 404 "Not Found" true
        (.error "Expecting value: line 1 column 1 (char 0)") : AttemptOutcome Nat)) 3).result
      ≠ .exn ⟨"HTTP 404 error: Not Found", some 404, some "Not Found"⟩ :=
  ⟨rfl, by decide⟩

/-- C2 (amended): if the attempt at index k (below maxRetries) receives an
HTTP response with an error status, after only retryable failures before it,
the request primitive fails immediately with whatever the non-2xx handler
produces — the exception carrying the status code and no body when the body
is empty, the exception carrying the status code and the JSON-decoded body
when the non-empty body parses, and the raw JSONDecodeError (with neither
status nor body) when the non-empty body is not valid JSON — having issued
exactly k+1 attempts with only the earlier backoff sleeps; the result does
not depend on what the transport would have done on any later attempt. -/
theorem c2_http_error_no_retry (α : Type) (script : Nat → AttemptOutcome α)
    (n k status : Nat) (text : String) (hasContent : Bool)
    (jsonParse : Except String String)
    (hk : k < n)
    (hr : ∀ i, i < k → retryableOutcome (script i) = true)
    (hs : script k = .httpStatusError status text hasContent jsonParse) :
    make_request script n
      = ⟨httpErrorResult α status text hasContent jsonParse,
         (List.range k).map (fun a => 2 ^ a), k + 1⟩
  ∧ (∀ v, hasContent = true → jsonParse = .ok v →
       httpErrorResult α status text hasContent jsonParse
         = .exn ⟨"HTTP " ++ toString status ++ " error: " ++ text, some status, some v⟩)
  ∧ (hasContent = false →
       httpErrorResult α status text hasContent jsonParse
         = .exn ⟨"HTTP " ++ toString status ++ " error: " ++ text, some status, none⟩)
  ∧ (∀ m, hasContent = true → jsonParse = .error m →
       httpErrorResult α status text hasContent jsonParse = .rawExn m)
  ∧ ∀ script2 : Nat → AttemptOutcome α, (∀ i, i ≤ k → script2 i = script i) →
      make_request script2 n = make_request script n := by
  have main : ∀ sc : Nat → AttemptOutcome α,
      (∀ i, i < k → retryableOutcome (sc i) = true) →
      sc k = .httpStatusError status text hasContent jsonParse →
      make_request sc n
        = ⟨httpErrorResult α status text hasContent jsonParse,
           (List.range k).map (fun a => 2 ^ a), k + 1⟩ := by
    intro sc h1 h2
    rw [make_request, make_request_loop_http α sc n status text hasContent jsonParse k 0 n
        (by omega) hk (fun i hi => by rw [Nat.zero_add]; exact h1 i hi)
        (by rw [Nat.zero_add]; exact h2),
      List.range_eq_range']
  refine ⟨main script hr hs, ?_, ?_, ?_, ?_⟩
  · intro v hcontent hjson
    simp [httpErrorResult, hcontent, hjson]
  · intro hcontent
    simp [httpErrorResult, hcontent]
  · intro m hcontent hjson
    simp [httpErrorResult, hcontent, hjson]
  · intro script2 h2
    rw [main script2
        (fun i hi => by rw [h2 i (Nat.le_of_lt hi)]; exact hr i hi)
        (by rw [h2 k (Nat.le_refl k)]; exact hs),
      main script hr hs]

/-- C2 witness: a 404 on the very first attempt whose non-empty body parses
as JSON aborts at once with the structured exception carrying the status
code and the decoded body, with no sleeps and a single attempt. -/
theorem c2_http_error_no_retry_witness :
    make_request (fun i => if i == 0 then AttemptOutcome.httpStatusError 404 "[1]" true (.ok "[1]")
                           else (AttemptOutcome.timeout "t" : AttemptOutcome Nat)) 3
      = ⟨.exn ⟨"HTTP 404 error: [1]", some 404, some "[1]"⟩, [], 1⟩ :=
  (c2_http_error_no_retry Nat
    (fun i => if i == 0 then AttemptOutcome.httpStatusError 404 "[1]" true (.ok "[1]")
              else (AttemptOutcome.timeout "t" : AttemptOutcome Nat))
    3 0 404 "[1]" true (.ok "[1]") (by decide)
    (fun i hi => absurd hi (Nat.not_lt_zero i)) rfl).1

/-- C3: the resolver returns None exactly when no directory entry matches
the requested name under the case-insensitive full-string comparison; the
first matching entry in upstream order wins (also among duplicate names);
the result ignores the active and circuit-bench flags entirely; and the
client functions expose exactly this scan over the fetched directory. The
analogous facts hold for the district resolver. -/
theorem c3_resolution_first_match (data : List JagritiStateCommission)
    (ddata : List JagritiDistrictCommission) (name dname : String) :
    (matchStateList data name = none ↔ ∀ s ∈ data, stateMatches name s = false)
  ∧ (∀ (l1 : List JagritiStateCommission) (s : JagritiStateCommission)
       (l2 : List JagritiStateCommission), data = l1 ++ s :: l2 →
       (∀ x ∈ l1, stateMatches name x = false) → stateMatches name s = true →
       matchStateList data name = some s.commissionId)
  ∧ (∀ f g : Bool → Bool,
       matchStateList (data.map (reflagState f g)) name = matchStateList data name)
  ∧ (matchDistrictList ddata dname = none ↔ ∀ d ∈ ddata, districtMatches dname d = false)
  ∧ (∀ (l1 : List JagritiDistrictCommission) (d : JagritiDistrictCommission)
       (l2 : List JagritiDistrictCommission), ddata = l1 ++ d :: l2 →
       (∀ x ∈ l1, districtMatches dname x = false) → districtMatches dname d = true →
       matchDistrictList ddata dname = some d.commissionId)
  ∧ (∀ f g : Bool → Bool,
       matchDistrictList (ddata.map (reflagDistrict f g)) dname = matchDistrictList ddata dname)
  ∧ (∀ (t : Transport) (resp : JagritiStatesResponse), t.statesResult = .ok resp →
       find_state_commission_id t name = .ok (matchStateList resp.data name))
  ∧ (∀ (t : Transport) (sid : Int) (dresp : JagritiDistrictCommissionsResponse),
       t.districtsResult sid = .ok dresp →
       find_district_commission_id t sid dname = .ok (matchDistrictList dresp.data dname)) := by
  refine ⟨?_, ?_, ?_, ?_, ?_, ?_, ?_, ?_⟩
  · simp [matchStateList, List.find?_eq_none]
  · intro l1 s l2 hdata h1 hs
    rw [hdata, matchStateList, find_first_in_order (stateMatches name) l1 s l2 h1 hs]
    rfl
  · intro f g
    simp [matchStateList, List.find?_map]
    congr 1
  · simp [matchDistrictList, List.find?_eq_none]
  · intro l1 d l2 hdata h1 hd
    rw [hdata, matchDistrictList, find_first_in_order (districtMatches dname) l1 d l2 h1 hd]
    rfl
  · intro f g
    simp [matchDistrictList, List.find?_map]
    congr 1
  · intro t resp h
    rw [find_state_commission_id, get_states_and_commissions, h]
  · intro t sid dresp h
    rw [find_district_commission_id, get_district_commissions, h]

/-- C3 witness: in a directory with a non-matching entry first and two
entries both named Karnataka in different casings, a lower-case query
resolves to the first of the duplicates, ignoring its flags. -/
theorem c3_resolution_first_match_witness :
    matchStateList
      [⟨1, "GOA", false, true⟩, ⟨11290000, "KARNATAKA", false, true⟩,
       ⟨99, "Karnataka", true, false⟩] "karnataka" = some 11290000 :=
  (c3_resolution_first_match
    [⟨1, "GOA", false, true⟩, ⟨11290000, "KARNATAKA", false, true⟩,
     ⟨99, "Karnataka", true, false⟩] [] "karnataka" "x").2.1
    [⟨1, "GOA", false, true⟩] ⟨11290000, "KARNATAKA", false, true⟩
    [⟨99, "Karnataka", true, false⟩] rfl (by decide) (by decide)

/-- C4: the payload assembled by the orchestrator carries the given search
type as serchType, the constants dateRequestType = 1, orderType = 1 and
judgeId empty, the given district commission ID, the given search value and
the given-or-defaulted dates; the seven search kinds map to the fixed
discriminants 1 through 7; the seven service entry points dispatch to the
parametrized search with those discriminants; and once both IDs resolve to
non-zero values, the pipeline executes the search with exactly the payload
built from the resolved district ID. -/
theorem c4_payload_fields (did st : Int) (req : CaseSearchRequest) :
    ((orchestrator_payload did st req).serchType = st
     ∧ (orchestrator_payload did st req).dateRequestType = 1
     ∧ (orchestrator_payload did st req).orderType = 1
     ∧ (orchestrator_payload did st req).judgeId = ""
     ∧ (orchestrator_payload did st req).commissionId = did
     ∧ (orchestrator_payload did st req).serchTypeValue = req.search_value
     ∧ (orchestrator_payload did st req).fromDate = pyOrStr req.from_date DEFAULT_FROM_DATE
     ∧ (orchestrator_payload did st req).toDate = pyOrStr req.to_date DEFAULT_TO_DATE)
  ∧ (searchTypeOf "case_number" = 1 ∧ searchTypeOf "complainant" = 2
     ∧ searchTypeOf "respondent" = 3 ∧ searchTypeOf "complainant_advocate" = 4
     ∧ searchTypeOf "respondent_advocate" = 5 ∧ searchTypeOf "industry_type" = 6
     ∧ searchTypeOf "judge" = 7)
  ∧ (∀ t : Transport,
       search_cases_by_case_number t req = search_cases_by_type t req 1
     ∧ search_cases_by_complainant t req = search_cases_by_type t req 2
     ∧ search_cases_by_respondent t req = search_cases_by_type t req 3
     ∧ search_cases_by_complainant_advocate t req = search_cases_by_type t req 4
     ∧ search_cases_by_respondent_advocate t req = search_cases_by_type t req 5
     ∧ search_cases_by_industry_type t req = search_cases_by_type t req 6
     ∧ search_cases_by_judge t req = search_cases_by_type t req 7)
  ∧ (∀ (t : Transport) (resp : JagritiStatesResponse) (sid : Int)
       (dresp : JagritiDistrictCommissionsResponse) (did2 : Int),
       t.statesResult = .ok resp → matchStateList resp.data req.state = some sid →
       sid ≠ 0 → t.districtsResult sid = .ok dresp →
       matchDistrictList dresp.data req.commission = some did2 → did2 ≠ 0 →
       search_cases_inner t req st
         = match search_cases t (orchestrator_payload did2 st req) with
           | .error m => .error (.jagriti m)
           | .ok jagriti_response =>
             .ok { cases := jagriti_response.data.map transform_case_detail,
                   total_count := (jagriti_response.data.map transform_case_detail).length,
                   search_criteria := {
                     state := req.state, commission := req.commission,
                     search_value := req.search_value, search_type := st,
                     from_date := pyOrStr req.from_date DEFAULT_FROM_DATE,
                     to_date := pyOrStr req.to_date DEFAULT_TO_DATE,
                     state_commission_id := sid, district_commission_id := did2 } }) := by
  refine ⟨⟨rfl, rfl, rfl, rfl, rfl, rfl, rfl, rfl⟩,
          ⟨rfl, rfl, rfl, rfl, rfl, rfl, rfl⟩,
          fun t => ⟨rfl, rfl, rfl, rfl, rfl, rfl, rfl⟩, ?_⟩
  intro t resp sid dresp did2 h1 h2 hsid h3 h4 hdid
  have e1 : find_state_commission_id t req.state = .ok (some sid) := by
    simp [find_state_commission_id, get_states_and_commissions, h1, h2]
  have e2 : find_district_commission_id t sid req.commission = .ok (some did2) := by
    simp [find_district_commission_id, get_district_commissions, h3, h4]
  have hsid2 : (sid == 0) = false := by simp [hsid]
  have hdid2 : (did2 == 0) = false := by simp [hdid]
  simp only [search_cases_inner, e1, e2, hsid2, hdid2]
  rfl

/-- C4 witness: the spec scenario, state KARNATAKA resolving to 11290000 and
commission Bangalore 1st and Rural Additional to 15290525 with kind
Complainant (discriminant 2), runs the search on the resolved payload. -/
theorem c4_payload_fields_witness :
    search_cases_inner
      { statesResult := .ok ⟨[⟨11290000, "KARNATAKA", false, true⟩], "", "", 200⟩,
        districtsResult := fun _ =>
          .ok ⟨[⟨15290525, "Bangalore 1st & Rural Additional", false, true⟩], "", "", 200⟩,
        searchResult := fun _ => .ok ⟨"", 200, [], ""⟩ }
      ⟨"KARNATAKA", "Bangalore 1st & Rural Additional", "REDDY", none, none⟩ 2
      = .ok { cases := [], total_count := 0,
              search_criteria := {
                state := "KARNATAKA", commission := "Bangalore 1st & Rural Additional",
                search_value := "REDDY", search_type := 2,
                from_date := "2025-01-01", to_date := "2025-09-03",
                state_commission_id := 11290000, district_commission_id := 15290525 } } :=
  ((c4_payload_fields 15290525 2
      ⟨"KARNATAKA", "Bangalore 1st & Rural Additional", "REDDY", none, none⟩).2.2.2
    { statesResult := .ok ⟨[⟨11290000, "KARNATAKA", false, true⟩], "", "", 200⟩,
      districtsResult := fun _ =>
        .ok ⟨[⟨15290525, "Bangalore 1st & Rural Additional", false, true⟩], "", "", 200⟩,
      searchResult := fun _ => .ok ⟨"", 200, [], ""⟩ }
    ⟨[⟨11290000, "KARNATAKA", false, true⟩], "", "", 200⟩ 11290000
    ⟨[⟨15290525, "Bangalore 1st & Rural Additional", false, true⟩], "", "", 200⟩ 15290525
    rfl (by decide) (by decide) rfl (by decide) (by decide)).trans rfl

/-- C5 counterexample: a transport whose state-directory fetch fails with an
upstream HTTP failure whose body reads Not Found (no resolution ever runs)
is surfaced by the route handler as the 404 not-found-style signal, because
the handler classifies by searching for the words not found in the message,
not by the failure class. -/
theorem c5_substring_counterexample :
    (Transport.mk (.error "HTTP 404 error: Not Found")
        (fun _ => .error "unused") (fun _ => .error "unused")).statesResult
      = .error "HTTP 404 error: Not Found"
  ∧ search_cases_endpoint
      ⟨.error "HTTP 404 error: Not Found",
       fun _ => .error "unused", fun _ => .error "unused"⟩
      ⟨"KARNATAKA", "Bangalore", "REDDY", none, none⟩ 1
      = .httpError 404
          "External API error: Failed to find state commission ID: Failed to fetch states and commissions: HTTP 404 error: Not Found" :=
  ⟨rfl, rfl⟩

/-- C5 (amended): every outcome of a search route call is either the success
value or an HTTP error classified by whether the lower-cased message contains
the words not found (404 when it does, 500 otherwise) — no unclassified fault
escapes; a state-resolution miss and a district-resolution miss always carry
such a message and are therefore surfaced as the 404 not-found signal; but
any other failure whose message happens to contain those words is surfaced
as 404 too, rather than as a generic failure. -/
theorem c5_error_classification (t : Transport) (req : CaseSearchRequest) (st : Int) :
    (∀ r, search_cases_by_type t req st = .ok r →
       search_cases_endpoint t req st = .success r)
  ∧ (∀ m, search_cases_by_type t req st = .error m →
       search_cases_endpoint t req st
         = if notFoundIn m then .httpError 404 m else .httpError 500 m)
  ∧ (∀ resp, t.statesResult = .ok resp → matchStateList resp.data req.state = none →
       search_cases_endpoint t req st
         = .httpError 404
             ("Case search failed: " ++ ("State \x27" ++ req.state ++ "\x27 not found")))
  ∧ (∀ resp sid dresp, t.statesResult = .ok resp →
       matchStateList resp.data req.state = some sid → sid ≠ 0 →
       t.districtsResult sid = .ok dresp →
       matchDistrictList dresp.data req.commission = none →
       search_cases_endpoint t req st
         = .httpError 404
             ("Case search failed: " ++ ("Commission \x27" ++ req.commission ++
               "\x27 not found in state \x27" ++ req.state ++ "\x27"))) := by
  refine ⟨?_, ?_, ?_, ?_⟩
  · intro r h
    rw [search_cases_endpoint, h]
  · intro m h
    rw [search_cases_endpoint, h]
  · intro resp h1 h2
    have e1 : find_state_commission_id t req.state = .ok none := by
      simp [find_state_commission_id, get_states_and_commissions, h1, h2]
    have hmsg : search_cases_by_type t req st
        = .error ("Case search failed: " ++ ("State \x27" ++ req.state ++ "\x27 not found")) := by
      simp [search_cases_by_type, search_cases_inner, e1]
    have hnf : notFoundIn
        ("Case search failed: " ++ ("State \x27" ++ req.state ++ "\x27 not found")) = true :=
      notFoundInAppendRight _ _ (notFoundInAppendRight _ _ (by decide))
    simp [search_cases_endpoint, hmsg, hnf]
  · intro resp sid dresp h1 h2 hsid h3 h4
    have e1 : find_state_commission_id t req.state = .ok (some sid) := by
      simp [find_state_commission_id, get_states_and_commissions, h1, h2]
    have hsid2 : (sid == 0) = false := by simp [hsid]
    have e2 : find_district_commission_id t sid req.commission = .ok none := by
      simp [find_district_commission_id, get_district_commissions, h3, h4]
    have hmsg : search_cases_by_type t req st
        = .error ("Case search failed: " ++ ("Commission \x27" ++ req.commission ++
            "\x27 not found in state \x27" ++ req.state ++ "\x27")) := by
      simp [search_cases_by_type, search_cases_inner, e1, e2, hsid2]
    have hnf : notFoundIn
        ("Case search failed: " ++ ("Commission \x27" ++ req.commission ++
          "\x27 not found in state \x27" ++ req.state ++ "\x27")) = true :=
      notFoundInAppendRight _ _ (notFoundInAppendLeft _ _ (notFoundInAppendLeft _ _
        (notFoundInAppendRight _ _ (by decide))))
    simp [search_cases_endpoint, hmsg, hnf]

/-- C5 witness: a state absent from the fetched directory produces the 404
not-found signal with the state-not-found message. -/
theorem c5_error_classification_witness :
    search_cases_endpoint
      { statesResult := .ok ⟨[], "", "", 200⟩,
        districtsResult := fun _ => .error "unused",
        searchResult := fun _ => .error "unused" }
      ⟨"NOWHERE", "B", "V", none, none⟩ 1
      = .httpError 404 "Case search failed: State \x27NOWHERE\x27 not found" :=
  (c5_error_classification
    { statesResult := .ok ⟨[], "", "", 200⟩,
      districtsResult := fun _ => .error "unused",
      searchResult := fun _ => .error "unused" }
    ⟨"NOWHERE", "B", "V", none, none⟩ 1).2.2.1 ⟨[], "", "", 200⟩ rfl rfl

/-- C6: the transform sets document_link to the configured base URL
concatenated with the raw record's orderDocumentPath whenever the record
carries a (non-empty) document path, leaves it absent when the record
carries none, and every other output field is the direct renaming of its
raw counterpart. -/
theorem c6_transform_fields (c : JagritiCaseDetail) (p : String) :
    (c.orderDocumentPath = some p → p ≠ "" →
       (transform_case_detail c).document_link = some (JAGRITI_BASE_URL ++ p))
  ∧ (c.orderDocumentPath = none → (transform_case_detail c).document_link = none)
  ∧ (transform_case_detail c).case_number = c.caseNumber
  ∧ (transform_case_detail c).case_stage = c.caseStageName
  ∧ (transform_case_detail c).filing_date = c.caseFilingDate
  ∧ (transform_case_detail c).complainant = c.complainantName
  ∧ (transform_case_detail c).complainant_advocate = c.complainantAdvocateName
  ∧ (transform_case_detail c).respondent = c.respondentName
  ∧ (transform_case_detail c).respondent_advocate = c.respondentAdvocateName := by
  refine ⟨?_, ?_, rfl, rfl, rfl, rfl, rfl, rfl, rfl⟩
  · intro h hp
    simp [transform_case_detail, h, hp]
  · intro h
    simp [transform_case_detail, h]

/-- C6 witness: a record with path /docs/x.pdf yields the base URL
concatenated with that path. -/
theorem c6_transform_fields_witness :
    (transform_case_detail
      { caseNumber := "DC/AB4/525/CC/72/2025", complainantName := "MANJUNATHA REDDY",
        respondentName := "INTERGLOBE AVIATION LIMITED", caseFilingDate := "2025-05-23",
        caseStageName := "ADMIT", dailyOrderStatus := false,
        orderDocumentPath := some "/docs/x.pdf" }).document_link
      = some "https://e-jagriti.gov.in/docs/x.pdf" :=
  (c6_transform_fields
    { caseNumber := "DC/AB4/525/CC/72/2025", complainantName := "MANJUNATHA REDDY",
      respondentName := "INTERGLOBE AVIATION LIMITED", caseFilingDate := "2025-05-23",
      caseStageName := "ADMIT", dailyOrderStatus := false,
      orderDocumentPath := some "/docs/x.pdf" } "/docs/x.pdf").1 rfl (by decide)

/-- C7 counterexample: the input 2025-1-1, which is not in the strict
YYYY-MM-DD form (single-digit month and day), is nonetheless accepted by the
validation layer, because strptime with the %Y-%m-%d format accepts
non-zero-padded month and day fields. -/
theorem c7_lenient_format_counterexample :
    validate_case_search_request "KARNATAKA" "Bangalore" "REDDY"
      (some "2025-1-1") (some "2025-1-1")
      = .ok ⟨"KARNATAKA", "Bangalore", "REDDY", some "2025-1-1", some "2025-1-1"⟩
  ∧ isStrictYMD "2025-1-1" = false
  ∧ strptime_date "2025-1-1" = some (2025, 1, 1) := ⟨rfl, rfl, rfl⟩

/-- C7 (amended): for well-formed non-date fields, a toDate that parses
strictly earlier than fromDate is rejected with the ordering error before
the transport is ever consulted (the route outcome is the same validation
error for every transport); a toDate equal to fromDate is accepted; and a
date strptime cannot parse is rejected with the format error — though
non-zero-padded forms such as 2025-1-1 do parse and are accepted. -/
theorem c7_date_validation (state commission search_value fs ts : String)
    (df dt : Nat × Nat × Nat)
    (hst : state ≠ "") (hc : commission ≠ "") (hv : search_value ≠ "")
    (hf : strptime_date fs = some df) (ht : strptime_date ts = some dt) :
    (dateLt dt df = true →
       validate_case_search_request state commission search_value (some fs) (some ts)
         = .error "to_date must be after from_date"
       ∧ ∀ (t1 t2 : Transport) (st2 : Int),
           api_full t1 state commission search_value (some fs) (some ts) st2
             = .validationError "to_date must be after from_date"
           ∧ api_full t1 state commission search_value (some fs) (some ts) st2
             = api_full t2 state commission search_value (some fs) (some ts) st2)
  ∧ (df = dt →
       validate_case_search_request state commission search_value (some fs) (some ts)
         = .ok { state := strUpper state, commission := commission,
                 search_value := search_value, from_date := some fs, to_date := some ts })
  ∧ (∀ (v : String) (td2 : Option String), strptime_date v = none →
       validate_case_search_request state commission search_value (some v) td2
         = .error "Date must be in YYYY-MM-DD format") := by
  refine ⟨?_, ?_, ?_⟩
  · intro hlt
    have hval : validate_case_search_request state commission search_value (some fs) (some ts)
        = .error "to_date must be after from_date" := by
      simp [validate_case_search_request, hst, hc, hv, validate_date_field, hf, ht, hlt]
    refine ⟨hval, ?_⟩
    intro t1 t2 st2
    constructor
    · simp [api_full, hval]
    · simp [api_full, hval]
  · intro heq
    subst heq
    have hlt : dateLt df df = false := by
      simp [dateLt]
    simp [validate_case_search_request, hst, hc, hv, validate_date_field, hf, ht, hlt]
  · intro v td2 hv2
    simp [validate_case_search_request, hst, hc, hv, validate_date_field, hv2]

/-- C7 witness: the spec scenario fromDate 2025-05-01 with toDate 2025-01-01
is rejected with the ordering error. -/
theorem c7_date_validation_witness :
    validate_case_search_request "KARNATAKA" "Bangalore" "REDDY"
      (some "2025-05-01") (some "2025-01-01")
      = .error "to_date must be after from_date" :=
  ((c7_date_validation "KARNATAKA" "Bangalore" "REDDY" "2025-05-01" "2025-01-01"
    (2025, 5, 1) (2025, 1, 1) (by decide) (by decide) (by decide) rfl rfl).1 (by decide)).1

/-- C8: on a successful search, the returned value has exactly the transform
of each upstream record, in upstream order (the i-th output is the transform
of the i-th raw record), total_count equal to the length of the record list,
and the criteria echo carrying the original criteria, both resolved IDs and
the possibly defaulted date range. -/
theorem c8_result_order_count_echo (t : Transport) (req : CaseSearchRequest) (st : Int)
    (resp : JagritiStatesResponse) (sid : Int)
    (dresp : JagritiDistrictCommissionsResponse) (did : Int)
    (sresp : JagritiCaseSearchResponse)
    (h1 : t.statesResult = .ok resp) (h2 : matchStateList resp.data req.state = some sid)
    (hsid : sid ≠ 0) (h3 : t.districtsResult sid = .ok dresp)
    (h4 : matchDistrictList dresp.data req.commission = some did) (hdid : did ≠ 0)
    (h5 : t.searchResult (orchestrator_payload did st req) = .ok sresp) :
    search_cases_by_type t req st
      = .ok { cases := sresp.data.map transform_case_detail,
              total_count := (sresp.data.map transform_case_detail).length,
              search_criteria := {
                state := req.state, commission := req.commission,
                search_value := req.search_value, search_type := st,
                from_date := pyOrStr req.from_date DEFAULT_FROM_DATE,
                to_date := pyOrStr req.to_date DEFAULT_TO_DATE,
                state_commission_id := sid, district_commission_id := did } }
  ∧ (sresp.data.map transform_case_detail).length = sresp.data.length
  ∧ ∀ (i : Nat) (hi : i < sresp.data.length),
      (sresp.data.map transform_case_detail).get ⟨i, by rw [List.length_map]; exact hi⟩
        = transform_case_detail (sresp.data.get ⟨i, hi⟩) := by
  have e1 : find_state_commission_id t req.state = .ok (some sid) := by
    simp [find_state_commission_id, get_states_and_commissions, h1, h2]
  have e2 : find_district_commission_id t sid req.commission = .ok (some did) := by
    simp [find_district_commission_id, get_district_commissions, h3, h4]
  have e3 : search_cases t (orchestrator_payload did st req) = .ok sresp := by
    simp [search_cases, h5]
  have hsid2 : (sid == 0) = false := by simp [hsid]
  have hdid2 : (did == 0) = false := by simp [hdid]
  refine ⟨?_, List.length_map _ _, ?_⟩
  · simp [search_cases_by_type, search_cases_inner, e1, e2, e3, hsid2, hdid2]
  · intro i hi
    simp [List.get_eq_getElem, List.getElem_map]

/-- C8 witness: two upstream records come back transformed in the same
order, with total_count 2 and the criteria echo carrying the resolved IDs
and the defaulted fromDate alongside the given toDate. -/
theorem c8_result_order_count_echo_witness :
    search_cases_by_type
      { statesResult := .ok ⟨[⟨11290000, "KARNATAKA", false, true⟩], "", "", 200⟩,
        districtsResult := fun _ =>
          .ok ⟨[⟨15290525, "Bangalore 1st & Rural Additional", false, true⟩], "", "", 200⟩,
        searchResult := fun _ => .ok ⟨"", 200,
          [{ caseNumber := "B", complainantName := "X", respondentName := "Y",
             caseFilingDate := "2025-02-02", caseStageName := "ADMIT",
             dailyOrderStatus := false },
           { caseNumber := "A", complainantName := "Z", respondentName := "W",
             caseFilingDate := "2025-01-01", caseStageName := "HEARING",
             dailyOrderStatus := true, orderDocumentPath := some "/d.pdf" }], ""⟩ }
      ⟨"karnataka", "BANGALORE 1ST & RURAL ADDITIONAL", "REDDY", none, some "2025-06-30"⟩ 2
      = .ok { cases :=
                [{ case_number := "B", case_stage := "ADMIT", filing_date := "2025-02-02",
                   complainant := "X", respondent := "Y" },
                 { case_number := "A", case_stage := "HEARING", filing_date := "2025-01-01",
                   complainant := "Z", respondent := "W",
                   document_link := some "https://e-jagriti.gov.in/d.pdf" }],
              total_count := 2,
              search_criteria := {
                state := "karnataka", commission := "BANGALORE 1ST & RURAL ADDITIONAL",
                search_value := "REDDY", search_type := 2,
                from_date := "2025-01-01", to_date := "2025-06-30",
                state_commission_id := 11290000, district_commission_id := 15290525 } } :=
  ((c8_result_order_count_echo
    { statesResult := .ok ⟨[⟨11290000, "KARNATAKA", false, true⟩], "", "", 200⟩,
      districtsResult := fun _ =>
        .ok ⟨[⟨15290525, "Bangalore 1st & Rural Additional", false, true⟩], "", "", 200⟩,
      searchResult := fun _ => .ok ⟨"", 200,
        [{ caseNumber := "B", complainantName := "X", respondentName := "Y",
           caseFilingDate := "2025-02-02", caseStageName := "ADMIT",
           dailyOrderStatus := false },
         { caseNumber := "A", complainantName := "Z", respondentName := "W",
           caseFilingDate := "2025-01-01", caseStageName := "HEARING",
           dailyOrderStatus := true, orderDocumentPath := some "/d.pdf" }], ""⟩ }
    ⟨"karnataka", "BANGALORE 1ST & RURAL ADDITIONAL", "REDDY", none, some "2025-06-30"⟩ 2
    ⟨[⟨11290000, "KARNATAKA", false, true⟩], "", "", 200⟩ 11290000
    ⟨[⟨15290525, "Bangalore 1st & Rural Additional", false, true⟩], "", "", 200⟩ 15290525
    ⟨"", 200,
      [{ caseNumber := "B", complainantName := "X", respondentName := "Y",
         caseFilingDate := "2025-02-02", caseStageName := "ADMIT",
         dailyOrderStatus := false },
       { caseNumber := "A", complainantName := "Z", respondentName := "W",
         caseFilingDate := "2025-01-01", caseStageName := "HEARING",
         dailyOrderStatus := true, orderDocumentPath := some "/d.pdf" }], ""⟩
    rfl (by decide) (by decide) rfl (by decide) (by decide) rfl).1).trans rfl

/-- C9: when the first directory entry matching the requested state carries
commission ID 0, the pipeline fails with the state-not-found error (surfaced
as the 404 not-found signal) instead of using the matched ID, because the
resolution result is tested for truthiness and 0 is falsy; likewise a
matched district entry with ID 0 yields the commission-not-found error. -/
theorem c9_zero_id_not_found (t : Transport) (req : CaseSearchRequest) (st : Int) :
    (∀ resp, t.statesResult = .ok resp → matchStateList resp.data req.state = some 0 →
       search_cases_by_type t req st
         = .error ("Case search failed: " ++ ("State \x27" ++ req.state ++ "\x27 not found"))
       ∧ search_cases_endpoint t req st
         = .httpError 404
             ("Case search failed: " ++ ("State \x27" ++ req.state ++ "\x27 not found")))
  ∧ (∀ resp sid dresp, t.statesResult = .ok resp →
       matchStateList resp.data req.state = some sid → sid ≠ 0 →
       t.districtsResult sid = .ok dresp →
       matchDistrictList dresp.data req.commission = some 0 →
       search_cases_by_type t req st
         = .error ("Case search failed: " ++ ("Commission \x27" ++ req.commission ++
             "\x27 not found in state \x27" ++ req.state ++ "\x27"))) := by
  constructor
  · intro resp h1 h2
    have e1 : find_state_commission_id t req.state = .ok (some 0) := by
      simp [find_state_commission_id, get_states_and_commissions, h1, h2]
    have hmsg : search_cases_by_type t req st
        = .error ("Case search failed: " ++ ("State \x27" ++ req.state ++ "\x27 not found")) := by
      simp [search_cases_by_type, search_cases_inner, e1]
    have hnf : notFoundIn
        ("Case search failed: " ++ ("State \x27" ++ req.state ++ "\x27 not found")) = true :=
      notFoundInAppendRight _ _ (notFoundInAppendRight _ _ (by decide))
    exact ⟨hmsg, by simp [search_cases_endpoint, hmsg, hnf]⟩
  · intro resp sid dresp h1 h2 hsid h3 h4
    have e1 : find_state_commission_id t req.state = .ok (some sid) := by
      simp [find_state_commission_id, get_states_and_commissions, h1, h2]
    have hsid2 : (sid == 0) = false := by simp [hsid]
    have e2 : find_district_commission_id t sid req.commission = .ok (some 0) := by
      simp [find_district_commission_id, get_district_commissions, h3, h4]
    simp [search_cases_by_type, search_cases_inner, e1, e2, hsid2]

/-- C9 witness: a directory whose matching KARNATAKA entry has commission ID
0 makes the search fail with the state-not-found message. -/
theorem c9_zero_id_not_found_witness :
    search_cases_by_type
      { statesResult := .ok ⟨[⟨0, "KARNATAKA", false, true⟩], "", "", 200⟩,
        districtsResult := fun _ => .error "unused",
        searchResult := fun _ => .error "unused" }
      ⟨"KARNATAKA", "B", "V", none, none⟩ 1
      = .error "Case search failed: State \x27KARNATAKA\x27 not found" :=
  ((c9_zero_id_not_found
    { statesResult := .ok ⟨[⟨0, "KARNATAKA", false, true⟩], "", "", 200⟩,
      districtsResult := fun _ => .error "unused",
      searchResult := fun _ => .error "unused" }
    ⟨"KARNATAKA", "B", "V", none, none⟩ 1).1
    ⟨[⟨0, "KARNATAKA", false, true⟩], "", "", 200⟩ rfl (by decide)).1

/-- C10: a raw record whose orderDocumentPath is present but equal to the
empty string is transformed exactly like a record with no document path: the
document link is absent, and in particular is not the base URL concatenated
with the empty string. -/
theorem c10_empty_path_no_link (c : JagritiCaseDetail)
    (h : c.orderDocumentPath = some "") :
    transform_case_detail c = transform_case_detail { c with orderDocumentPath := none }
  ∧ (transform_case_detail c).document_link = none
  ∧ (transform_case_detail c).document_link ≠ some (JAGRITI_BASE_URL ++ "") := by
  refine ⟨?_, ?_, ?_⟩ <;> simp [transform_case_detail, h]

/-- C10 witness: a concrete record with an empty document path yields no
document link. -/
theorem c10_empty_path_no_link_witness :
    (transform_case_detail
      { caseNumber := "N", complainantName := "C", respondentName := "R",
        caseFilingDate := "2025-01-01", caseStageName := "ADMIT",
        dailyOrderStatus := false, orderDocumentPath := some "" }).document_link = none :=
  (c10_empty_path_no_link
    { caseNumber := "N", complainantName := "C", respondentName := "R",
      caseFilingDate := "2025-01-01", caseStageName := "ADMIT",
      dailyOrderStatus := false, orderDocumentPath := some "" } rfl).2.1
